import Mathlib

/-
Verification of the real-time interaction and procedural-animation engine of
the gesture-controlled ocean scene.  The per-frame update callbacks of
src/App.tsx and src/components/OceanEnvironment.tsx are embedded as pure Lean
functions over ℚ (JS numbers are modelled as exact rationals); every call of
Math.random() is made an explicit parameter in [0, 1); the setTimeout used for
the storm duration in App.tsx is modelled, following the design notes of the
specification, as a stored absolute expiry time that is checked against the
clock at the start of every tick (a browser timer whose deadline has passed is
run as a task before the next animation-frame callback).
-/

set_option autoImplicit false

namespace OceanSpec

/-- GameState enum of src/types (part of the repository sources): the
environment state machine has exactly the two states NORMAL and STORM. -/
inductive GameState where
  | NORMAL
  | STORM
deriving DecidableEq, Repr

/-- A 2-D vector with rational coordinates, as used for
`directionVector` of HandData. -/
structure Vec2 where
  x : ℚ
  y : ℚ
deriving DecidableEq, Repr

/-- HandData as consumed by SceneController: only `isDetected` and
`directionVector` are read by the per-frame update (the `position` field is
used solely by the UI overlay and is omitted). -/
structure HandData where
  isDetected : Bool
  directionVector : Vec2
deriving DecidableEq, Repr

/-- `const SPEED = 15.0` of SceneController
(src/components/OceanEnvironment.tsx line 237). -/
def SPEED : ℚ := 15

/-- `const EVENT_THRESHOLD_SECONDS = 10` of SceneController (line 238). -/
def EVENT_THRESHOLD_SECONDS : ℚ := 10

/-- `const deadzone = 0.15` of SceneController (line 245). -/
def deadzone : ℚ := 0.15

/-- The `isMoving` test of SceneController (lines 244-253):
`handData.isDetected` and `Math.sqrt(dx**2 + dy**2) > deadzone`.  Since both
sides of that comparison are nonnegative and the square root is strictly
monotone, the comparison of the square roots is embedded as the equivalent
comparison of the squares, which keeps the definition inside ℚ. -/
def isMoving (h : HandData) : Bool :=
  h.isDetected &&
    decide (deadzone ^ 2 < h.directionVector.x ^ 2 + h.directionVector.y ^ 2)

/-- The gesture accumulator of SceneController (lines 255-263): while moving,
`moveDurationRef.current += delta` and a trigger fires (with a reset to 0)
once the accumulator exceeds `EVENT_THRESHOLD_SECONDS`; otherwise
`moveDurationRef.current = Math.max(0, moveDurationRef.current - delta * 2)`.
Returns the new accumulator value and whether `onEventTrigger` was called. -/
def accumulatorStep (moving : Bool) (δ md : ℚ) : ℚ × Bool :=
  if moving then
    if md + δ > EVENT_THRESHOLD_SECONDS then (0, true)
    else (md + δ, false)
  else (max 0 (md - δ * 2), false)

/-- State owned by SceneController (lines 232-274): the `moveDurationRef`
accumulator, the `velocity` ref (only the x and z components are used by the
code) and the camera position mutated by its `useFrame` callback. -/
structure ControllerState where
  moveDuration : ℚ
  velocityX : ℚ
  velocityZ : ℚ
  camX : ℚ
  camY : ℚ
  camZ : ℚ
deriving DecidableEq, Repr

/-- One `useFrame` tick of SceneController (lines 240-271).  Computes the
target velocity from the hand sample, runs the gesture accumulator, smooths
the velocity by the fixed per-frame fraction `0.05` and integrates the camera
position (`camera.position.y = 10` is set unconditionally).  Returns the new
state and whether `onEventTrigger` was called during the tick. -/
def sceneControllerFrame (h : HandData) (δ : ℚ) (s : ControllerState) :
    ControllerState × Bool :=
  let targetVX : ℚ := if isMoving h then h.directionVector.x * SPEED else 0
  let targetVZ : ℚ := if isMoving h then h.directionVector.y * SPEED else 0
  let acc := accumulatorStep (isMoving h) δ s.moveDuration
  let vX := s.velocityX + (targetVX - s.velocityX) * 0.05
  let vZ := s.velocityZ + (targetVZ - s.velocityZ) * 0.05
  ({ moveDuration := acc.1
     velocityX := vX
     velocityZ := vZ
     camX := s.camX + vX * δ
     camY := 10
     camZ := s.camZ + vZ * δ }, acc.2)

/-- Initial SceneController state: accumulator and velocity refs start at 0,
the Canvas camera starts at position [0, 10, 100] (line 296). -/
def initController : ControllerState :=
  { moveDuration := 0, velocityX := 0, velocityZ := 0
    camX := 0, camY := 10, camZ := 100 }

/-- Folding a sequence of tick durations through the SceneController frame
with a fixed hand sample. -/
def runController (h : HandData) (δs : List ℚ) (s : ControllerState) :
    ControllerState :=
  δs.foldl (fun st δ => (sceneControllerFrame h δ st).1) s

/-- Iterating `n` SceneController ticks of equal duration `δ` with a fixed
hand sample. -/
def iterateController (h : HandData) (δ : ℚ) : ℕ → ControllerState → ControllerState
  | 0, s => s
  | n + 1, s => (sceneControllerFrame h δ (iterateController h δ n s)).1

/-- One rain particle position (x, y, z) of the Rain component
(src/components/OceanEnvironment.tsx lines 33-86). -/
structure Particle where
  x : ℚ
  y : ℚ
  z : ℚ
deriving DecidableEq, Repr

/-- `150` — the rain fall speed (line 56). -/
def rainFallSpeed : ℚ := 150

/-- `300` — the height a particle is reset to (line 58). -/
def rainTopHeight : ℚ := 300

/-- The per-particle body of the Rain `useFrame` loop (lines 55-60): the
vertical coordinate decreases by `150 * delta`; when the decreased value has
dropped below 0 it is set back to 300; the loop steps through indices
`i = 1, 4, 7, ...`, i.e. it only ever writes y components, so x and z are
untouched. -/
def rainParticleStep (δ : ℚ) (p : Particle) : Particle :=
  if p.y - rainFallSpeed * δ < 0 then { p with y := rainTopHeight }
  else { p with y := p.y - rainFallSpeed * δ }

/-- One Rain `useFrame` tick over the whole particle field. -/
def rainFrame (δ : ℚ) (ps : List Particle) : List Particle :=
  ps.map (rainParticleStep δ)

/-- Initial particle height `Math.random() * 400` (line 41), with the random
sample `r ∈ [0, 1)` made explicit. -/
def rainInitY (r : ℚ) : ℚ := r * 400

/-- `MathUtils.lerp(x, y, t) = x + (y - x) * t` from three.js; note this does
not clamp `t`. -/
def lerp (x y t : ℚ) : ℚ := x + (y - x) * t

/-- One OceanMesh `useFrame` update of the `distortionScale` uniform
(lines 205-220): `lerp(current, target, delta)` where the target is 8.0 in
STORM and 3.7 otherwise. -/
def distortionFrame (g : GameState) (δ : ℚ) (d : ℚ) : ℚ :=
  lerp d (if g = GameState.STORM then 8.0 else 3.7) δ

/-- State owned by LightningSystem (lines 123-173): the active bolt origin
(its x and z; its y is always 300), `nextFlashTime` and `flashIntensity`. -/
structure LightningState where
  activeBolt : Option (ℚ × ℚ)
  nextFlashTime : ℚ
  flashIntensity : ℚ
deriving DecidableEq, Repr

/-- `2.0` — the intensity a flash starts with (line 145). -/
def flashPeak : ℚ := 2.0

/-- One LightningSystem `useFrame` tick (lines 130-165).  If disabled, the
bolt is cleared and the intensity zeroed.  Otherwise, when the clock has
passed `nextFlashTime`, a bolt is spawned at `((rX - 0.5) * 800,
(rZ - 0.5) * 800 - 200)`, the intensity is set to the peak and the next flash
is scheduled at `now + rD * 2.5 + 0.5`; in every enabled tick the intensity
then decays by `MathUtils.lerp(intensity, 0, delta * 5)`.  The three
Math.random() samples are the explicit parameters `rX rZ rD ∈ [0, 1)`.  (The
150 ms bolt-clearing timeout of line 151 is not modelled; no claim concerns
it.) -/
def lightningFrame (enabled : Bool) (now δ rX rZ rD : ℚ) (s : LightningState) :
    LightningState :=
  if !enabled then
    { s with activeBolt := none, flashIntensity := 0 }
  else
    let s1 :=
      if now > s.nextFlashTime then
        { activeBolt := some ((rX - 0.5) * 800, (rZ - 0.5) * 800 - 200)
          flashIntensity := flashPeak
          nextFlashTime := now + rD * 2.5 + 0.5 }
      else s
    { s1 with flashIntensity := lerp s1.flashIntensity 0 (δ * 5) }

/-- `10000` ms — the storm duration of App.tsx (line 32), in seconds. -/
def STORM_DURATION_SECONDS : ℚ := 10

/-- State owned by App.tsx relevant to the state machine: the GameState and
the pending storm-expiry time (the setTimeout of lines 28-32 modelled as an
absolute deadline). -/
structure AppState where
  gameState : GameState
  stormEnd : Option ℚ
deriving DecidableEq, Repr

/-- `triggerStorm` of App.tsx (lines 20-33): a trigger received while already
in STORM returns immediately; otherwise the state becomes STORM and the
return to NORMAL is scheduled 10 seconds later. -/
def triggerStorm (now : ℚ) (s : AppState) : AppState :=
  if s.gameState = GameState.STORM then s
  else { gameState := GameState.STORM
         stormEnd := some (now + STORM_DURATION_SECONDS) }

/-- The storm-expiry timeout of App.tsx, run when its deadline has passed:
checked against the clock at the start of every tick. -/
def stormTimerCheck (now : ℚ) (s : AppState) : AppState :=
  match s.stormEnd with
  | some te =>
      if te ≤ now then { gameState := GameState.NORMAL, stormEnd := none }
      else s
  | none => s

/-- The composed per-tick system: App state plus SceneController state. -/
structure SystemState where
  app : AppState
  ctrl : ControllerState
deriving DecidableEq, Repr

/-- One tick of the composed system at clock time `now` with elapsed `δ`: a
due storm timeout runs first, then the SceneController frame; a trigger fired
by the frame is delivered to `triggerStorm` within the same tick.  Returns
the new state and whether a trigger event was emitted. -/
def systemFrame (h : HandData) (now δ : ℚ) (s : SystemState) :
    SystemState × Bool :=
  let app1 := stormTimerCheck now s.app
  let cf := sceneControllerFrame h δ s.ctrl
  let app2 := if cf.2 then triggerStorm now app1 else app1
  ({ app := app2, ctrl := cf.1 }, cf.2)

/-- Initial system state: NORMAL, no pending timeout, controller at its
initial state. -/
def initSystem : SystemState :=
  { app := { gameState := GameState.NORMAL, stormEnd := none }
    ctrl := initController }

/-- Runs the composed system over a list of (hand sample, elapsed time)
ticks, the clock advancing by each tick's `δ`, and reports whether at any
tick a trigger event was emitted while the environment state (after the
tick's timer check) was STORM. -/
def firedWhileStorm : List (HandData × ℚ) → ℚ → SystemState → Bool
  | [], _, _ => false
  | (h, δ) :: rest, t, s =>
    ((systemFrame h (t + δ) δ s).2 &&
        decide ((stormTimerCheck (t + δ) s.app).gameState = GameState.STORM)) ||
      firedWhileStorm rest (t + δ) (systemFrame h (t + δ) δ s).1

/-- Inductive invariant of the composed system at clock time `t`: the gesture
accumulator is nonnegative, and while in STORM the accumulator cannot yet
have reached the trigger threshold before the pending expiry `te`. -/
def sysInv (t : ℚ) (s : SystemState) : Prop :=
  0 ≤ s.ctrl.moveDuration ∧
  (s.app.gameState = GameState.STORM →
    ∃ te, s.app.stormEnd = some te ∧
      s.ctrl.moveDuration + te ≤ t + EVENT_THRESHOLD_SECONDS)

/-! Helper lemmas about the accumulator and the projections of the frame
functions. -/

theorem frame_moveDuration (h : HandData) (δ : ℚ) (s : ControllerState) :
    (sceneControllerFrame h δ s).1.moveDuration
      = (accumulatorStep (isMoving h) δ s.moveDuration).1 := rfl

theorem frame_fired (h : HandData) (δ : ℚ) (s : ControllerState) :
    (sceneControllerFrame h δ s).2
      = (accumulatorStep (isMoving h) δ s.moveDuration).2 := rfl

theorem accum_nonneg (m : Bool) (δ md : ℚ) (hδ : 0 ≤ δ) (h0 : 0 ≤ md) :
    0 ≤ (accumulatorStep m δ md).1 := by
  unfold accumulatorStep
  split
  · split
    · simp
    · simp only
      linarith
  · exact le_max_left 0 _

theorem accum_le_threshold (m : Bool) (δ md : ℚ) (hδ : 0 ≤ δ) (h0 : 0 ≤ md)
    (h10 : md ≤ EVENT_THRESHOLD_SECONDS) :
    (accumulatorStep m δ md).1 ≤ EVENT_THRESHOLD_SECONDS := by
  unfold accumulatorStep EVENT_THRESHOLD_SECONDS at *
  split
  · split
    · norm_num
    · simp only
      linarith
  · simp only
    refine max_le (by norm_num) (by linarith)

theorem accum_fired_md (m : Bool) (δ md : ℚ)
    (hf : (accumulatorStep m δ md).2 = true) : (accumulatorStep m δ md).1 = 0 := by
  unfold accumulatorStep at *
  split at hf
  · split at hf
    · simp_all
    · simp_all
  · simp_all

theorem accum_fired_iff (m : Bool) (δ md : ℚ) :
    (accumulatorStep m δ md).2 = true
      ↔ (m = true ∧ EVENT_THRESHOLD_SECONDS < md + δ) := by
  unfold accumulatorStep
  split
  · rename_i hm
    split
    · rename_i hgt
      simp [hm, hgt]
    · rename_i hgt
      simp only [not_lt] at hgt
      simp only [Prod.snd]
      constructor
      · intro hfalse
        exact absurd hfalse (by simp)
      · rintro ⟨_, hlt⟩
        linarith
  · rename_i hm
    simp only [Bool.not_eq_true] at hm
    simp [hm]

theorem accum_le (m : Bool) (δ md : ℚ) (hδ : 0 ≤ δ) (h0 : 0 ≤ md) :
    (accumulatorStep m δ md).1 ≤ md + δ := by
  unfold accumulatorStep
  split
  · split
    · simp only
      linarith
    · simp only
      linarith
  · simp only
    exact max_le (by linarith) (by linarith)

theorem triggerStorm_gameState (now : ℚ) (a : AppState) :
    (triggerStorm now a).gameState = GameState.STORM := by
  unfold triggerStorm
  split
  · rename_i hg
    exact hg
  · rfl

theorem triggerStorm_of_normal (now : ℚ) (a : AppState)
    (hn : a.gameState = GameState.NORMAL) :
    triggerStorm now a
      = { gameState := GameState.STORM
          stormEnd := some (now + STORM_DURATION_SECONDS) } := by
  unfold triggerStorm
  simp [hn]

theorem triggerStorm_of_storm (now : ℚ) (a : AppState)
    (hs : a.gameState = GameState.STORM) : triggerStorm now a = a := by
  unfold triggerStorm
  simp [hs]

theorem stormTimerCheck_cases (now : ℚ) (a : AppState) :
    (a.stormEnd = none ∧ stormTimerCheck now a = a) ∨
    (∃ te, a.stormEnd = some te ∧ te ≤ now ∧
      stormTimerCheck now a
        = { gameState := GameState.NORMAL, stormEnd := none }) ∨
    (∃ te, a.stormEnd = some te ∧ now < te ∧ stormTimerCheck now a = a) := by
  rcases hse : a.stormEnd with _ | te
  · exact Or.inl ⟨rfl, by simp [stormTimerCheck, hse]⟩
  · by_cases hle : te ≤ now
    · exact Or.inr (Or.inl ⟨te, rfl, hle, by simp [stormTimerCheck, hse, hle]⟩)
    · exact Or.inr (Or.inr ⟨te, rfl, not_le.1 hle, by simp [stormTimerCheck, hse, hle]⟩)

theorem stormTimerCheck_of_lt (now te : ℚ) (a : AppState)
    (hse : a.stormEnd = some te) (hlt : now < te) :
    stormTimerCheck now a = a := by
  have hn : ¬ te ≤ now := not_le.2 hlt
  simp [stormTimerCheck, hse, hn]

theorem systemFrame_app (h : HandData) (now δ : ℚ) (s : SystemState) :
    ((systemFrame h now δ s).1).app
      = (if (accumulatorStep (isMoving h) δ s.ctrl.moveDuration).2 = true then
          triggerStorm now (stormTimerCheck now s.app)
        else stormTimerCheck now s.app) := rfl

theorem systemFrame_md (h : HandData) (now δ : ℚ) (s : SystemState) :
    ((systemFrame h now δ s).1).ctrl.moveDuration
      = (accumulatorStep (isMoving h) δ s.ctrl.moveDuration).1 := rfl

theorem systemFrame_snd (h : HandData) (now δ : ℚ) (s : SystemState) :
    (systemFrame h now δ s).2
      = (accumulatorStep (isMoving h) δ s.ctrl.moveDuration).2 := rfl

theorem storm_duration_le_threshold :
    STORM_DURATION_SECONDS ≤ EVENT_THRESHOLD_SECONDS := by
  norm_num [STORM_DURATION_SECONDS, EVENT_THRESHOLD_SECONDS]

/-- Invariant preservation in the case that the post-timer-check state is the
NORMAL state `a`. -/
theorem sysInv_step_normal (h : HandData) (t δ : ℚ) (s : SystemState)
    (hδ : 0 ≤ δ) (h0 : 0 ≤ s.ctrl.moveDuration) (a : AppState)
    (hchk : stormTimerCheck (t + δ) s.app = a)
    (hnorm : a.gameState = GameState.NORMAL) :
    sysInv (t + δ) ((systemFrame h (t + δ) δ s).1) ∧
    ((systemFrame h (t + δ) δ s).2 = true →
      (stormTimerCheck (t + δ) s.app).gameState = GameState.NORMAL) := by
  have hmdnn : 0 ≤ (accumulatorStep (isMoving h) δ s.ctrl.moveDuration).1 :=
    accum_nonneg _ _ _ hδ h0
  refine ⟨⟨by rw [systemFrame_md]; exact hmdnn, ?_⟩, ?_⟩
  · intro hg2
    rw [systemFrame_app, hchk] at hg2 ⊢
    by_cases hf : (accumulatorStep (isMoving h) δ s.ctrl.moveDuration).2 = true
    · rw [if_pos hf] at hg2 ⊢
      rw [triggerStorm_of_normal _ _ hnorm]
      refine ⟨t + δ + STORM_DURATION_SECONDS, rfl, ?_⟩
      rw [systemFrame_md, accum_fired_md _ _ _ hf]
      linarith [storm_duration_le_threshold]
    · rw [if_neg hf] at hg2
      rw [hnorm] at hg2
      exact absurd hg2 (by simp)
  · intro _
    rw [hchk]
    exact hnorm

/-- One-step preservation of the system invariant, together with the key
consequence: a trigger emitted during the tick finds the environment state
(after the tick's timer check) in NORMAL. -/
theorem sysInv_step (h : HandData) (t δ : ℚ) (s : SystemState)
    (hinv : sysInv t s) (hδ : 0 ≤ δ) :
    sysInv (t + δ) ((systemFrame h (t + δ) δ s).1) ∧
    ((systemFrame h (t + δ) δ s).2 = true →
      (stormTimerCheck (t + δ) s.app).gameState = GameState.NORMAL) := by
  obtain ⟨hmd0, hstorm⟩ := hinv
  rcases stormTimerCheck_cases (t + δ) s.app with
      ⟨hse, hchk⟩ | ⟨te, hse, hle2, hchk⟩ | ⟨te, hse, hlt, hchk⟩
  · -- no pending timeout: the state must be NORMAL, for a STORM state always
    -- has a pending expiry by the invariant
    have hnorm : s.app.gameState = GameState.NORMAL := by
      cases hg : s.app.gameState with
      | NORMAL => rfl
      | STORM =>
        obtain ⟨te, hte, _⟩ := hstorm hg
        rw [hse] at hte
        exact absurd hte (by simp)
    exact sysInv_step_normal h t δ s hδ hmd0 s.app hchk hnorm
  · -- the pending timeout is due: the timer check yields NORMAL
    exact sysInv_step_normal h t δ s hδ hmd0 _ hchk rfl
  · -- a pending timeout that is not yet due
    cases hg : s.app.gameState with
    | NORMAL => exact sysInv_step_normal h t δ s hδ hmd0 s.app hchk hg
    | STORM =>
      obtain ⟨te2, hte2, hbound⟩ := hstorm hg
      rw [hse, Option.some_inj] at hte2
      subst hte2
      -- the accumulator cannot fire strictly before the pending expiry
      have hnf : (accumulatorStep (isMoving h) δ s.ctrl.moveDuration).2 = false := by
        cases hf2 : (accumulatorStep (isMoving h) δ s.ctrl.moveDuration).2 with
        | false => rfl
        | true =>
          obtain ⟨_, hgt⟩ := (accum_fired_iff _ _ _).1 hf2
          exact absurd hgt (by linarith)
      have hfne : ¬ (accumulatorStep (isMoving h) δ s.ctrl.moveDuration).2 = true := by
        simp [hnf]
      refine ⟨⟨by rw [systemFrame_md]; exact accum_nonneg _ _ _ hδ hmd0, ?_⟩, ?_⟩
      · intro _
        rw [systemFrame_app, if_neg hfne, hchk]
        refine ⟨te, hse, ?_⟩
        rw [systemFrame_md]
        have := accum_le (isMoving h) δ s.ctrl.moveDuration hδ hmd0
        linarith
      · intro hf3
        rw [systemFrame_snd, hnf] at hf3
        exact absurd hf3 (by simp)

/-- The invariant holds at the initial state at any clock time. -/
theorem sysInv_init (t0 : ℚ) : sysInv t0 initSystem := by
  constructor
  · norm_num [initSystem, initController]
  · intro hg
    exact absurd hg (by simp [initSystem])

/-- From any state satisfying the invariant, no run of ticks with
nonnegative elapsed times ever emits a trigger while in STORM. -/
theorem firedWhileStorm_false :
    ∀ (inputs : List (HandData × ℚ)) (t : ℚ) (s : SystemState),
      sysInv t s → (∀ x ∈ inputs, 0 ≤ x.2) →
      firedWhileStorm inputs t s = false := by
  intro inputs
  induction inputs with
  | nil => intro t s _ _; rfl
  | cons hd rest ih =>
    intro t s hinv hδ
    obtain ⟨h, δ⟩ := hd
    have hδ0 : 0 ≤ δ := hδ _ (List.mem_cons_self _ _)
    have hrest : ∀ x ∈ rest, 0 ≤ x.2 := fun x hx => hδ x (List.mem_cons_of_mem _ hx)
    have hstep := sysInv_step h t δ s hinv hδ0
    have h1 : ((systemFrame h (t + δ) δ s).2 &&
        decide ((stormTimerCheck (t + δ) s.app).gameState = GameState.STORM))
          = false := by
      cases hf : (systemFrame h (t + δ) δ s).2 with
      | false => simp
      | true =>
        have hn := hstep.2 hf
        simp [hn]
    show (((systemFrame h (t + δ) δ s).2 &&
        decide ((stormTimerCheck (t + δ) s.app).gameState = GameState.STORM)) ||
      firedWhileStorm rest (t + δ) (systemFrame h (t + δ) δ s).1) = false
    rw [h1, Bool.false_or]
    exact ih (t + δ) _ hstep.1 hrest

theorem foldTimer_of_lt (te : ℚ) (a : AppState) (hse : a.stormEnd = some te) :
    ∀ ts : List ℚ, (∀ u ∈ ts, u < te) →
      ts.foldl (fun b u => stormTimerCheck u b) a = a := by
  intro ts
  induction ts with
  | nil => intro _; rfl
  | cons u rest ih =>
    intro hlt
    simp only [List.foldl_cons]
    rw [stormTimerCheck_of_lt u te a hse (hlt u (List.mem_cons_self u rest))]
    exact ih (fun v hv => hlt v (List.mem_cons_of_mem u hv))

/-- C3: while the environment state is STORM, no trigger event is emitted
(first conjunct: in every run of the composed system from the initial state
with nonnegative tick durations, no tick emits a trigger while the
post-timer-check state is STORM), a received trigger neither re-enters the
storm nor restarts its timer (second conjunct: `triggerStorm` is the identity
on STORM states, so the pending expiry is unchanged), and the state returns
to NORMAL only by elapsed-time expiry (third conjunct: a tick that takes the
state from STORM to NORMAL had a pending expiry that was due at that tick's
clock time). -/
theorem no_trigger_effect_during_storm :
    (∀ (inputs : List (HandData × ℚ)) (t0 : ℚ), (∀ x ∈ inputs, 0 ≤ x.2) →
        firedWhileStorm inputs t0 initSystem = false) ∧
    (∀ (now : ℚ) (a : AppState), a.gameState = GameState.STORM →
        triggerStorm now a = a) ∧
    (∀ (h : HandData) (now δ : ℚ) (s : SystemState),
        s.app.gameState = GameState.STORM →
        ((systemFrame h now δ s).1).app.gameState = GameState.NORMAL →
        ∃ te, s.app.stormEnd = some te ∧ te ≤ now) := by
  refine ⟨?_, ?_, ?_⟩
  · intro inputs t0 hδ
    exact firedWhileStorm_false inputs t0 initSystem (sysInv_init t0) hδ
  · intro now a hs
    exact triggerStorm_of_storm now a hs
  · intro h now δ s hs hres
    rcases stormTimerCheck_cases now s.app with
        ⟨hse, hchk⟩ | ⟨te, hse, hle, hchk⟩ | ⟨te, hse, hlt, hchk⟩
    · exfalso
      have hst : ((systemFrame h now δ s).1).app.gameState = GameState.STORM := by
        rw [systemFrame_app, hchk]
        split
        · exact triggerStorm_gameState _ _
        · exact hs
      rw [hres] at hst
      exact absurd hst (by simp)
    · exact ⟨te, hse, hle⟩
    · exfalso
      have hst : ((systemFrame h now δ s).1).app.gameState = GameState.STORM := by
        rw [systemFrame_app, hchk]
        split
        · exact triggerStorm_gameState _ _
        · exact hs
      rw [hres] at hst
      exact absurd hst (by simp)

theorem no_trigger_effect_during_storm_witness :
    firedWhileStorm
        [(⟨true, ⟨1, 0⟩⟩, 6), (⟨true, ⟨1, 0⟩⟩, 6), (⟨true, ⟨1, 0⟩⟩, 5)]
        0 initSystem = false ∧
    triggerStorm 5 ⟨GameState.STORM, some 12⟩ = ⟨GameState.STORM, some 12⟩ :=
  ⟨no_trigger_effect_during_storm.1 _ 0 (by norm_num),
    no_trigger_effect_during_storm.2.1 5 ⟨GameState.STORM, some 12⟩ rfl⟩

/-- C4: after `triggerStorm` fires at clock time `t0` in NORMAL, the state is
STORM with its expiry pending at `t0 + 10`; it is still STORM after any
sequence of ticks whose clock times are all strictly below `t0 + 10`; and the
first tick whose clock time has reached `t0 + 10` returns it to NORMAL. -/
theorem storm_clears_after_duration (t0 : ℚ) (s : AppState)
    (hs : s.gameState = GameState.NORMAL) (ts : List ℚ) (t2 : ℚ)
    (hts : ∀ u ∈ ts, u < t0 + STORM_DURATION_SECONDS)
    (ht2 : t0 + STORM_DURATION_SECONDS ≤ t2) :
    (triggerStorm t0 s).gameState = GameState.STORM ∧
    (ts.foldl (fun b u => stormTimerCheck u b) (triggerStorm t0 s)).gameState
        = GameState.STORM ∧
    (stormTimerCheck t2 (ts.foldl (fun b u => stormTimerCheck u b)
        (triggerStorm t0 s))).gameState = GameState.NORMAL := by
  have he := triggerStorm_of_normal t0 s hs
  have hfold := foldTimer_of_lt (t0 + STORM_DURATION_SECONDS) (triggerStorm t0 s)
      (by rw [he]) ts hts
  refine ⟨by rw [he], by rw [hfold, he], ?_⟩
  rw [hfold, he]
  simp [stormTimerCheck, ht2]

theorem storm_clears_after_duration_witness :
    (triggerStorm 0 ⟨GameState.NORMAL, none⟩).gameState = GameState.STORM ∧
    (([(1 : ℚ), 999/100].foldl (fun b u => stormTimerCheck u b)
        (triggerStorm 0 ⟨GameState.NORMAL, none⟩)).gameState
          = GameState.STORM) ∧
    ((stormTimerCheck (1001/100) ([(1 : ℚ), 999/100].foldl
        (fun b u => stormTimerCheck u b)
        (triggerStorm 0 ⟨GameState.NORMAL, none⟩))).gameState
          = GameState.NORMAL) :=
  storm_clears_after_duration 0 ⟨GameState.NORMAL, none⟩ rfl
    [(1 : ℚ), 999/100] (1001/100)
    (by norm_num [STORM_DURATION_SECONDS])
    (by norm_num [STORM_DURATION_SECONDS])

/-- C5: after every tick with nonnegative elapsed time, starting from an
accumulator value in [0, threshold], the gesture accumulator is nonnegative
and does not exceed the trigger threshold; a tick on which the accumulated
value exceeds the threshold fires the trigger, and any tick that fires the
trigger resets the accumulator to zero within that same tick. -/
theorem accumulator_threshold_invariant (h : HandData) (δ : ℚ)
    (s : ControllerState) (hδ : 0 ≤ δ) (h0 : 0 ≤ s.moveDuration)
    (h10 : s.moveDuration ≤ EVENT_THRESHOLD_SECONDS) :
    0 ≤ (sceneControllerFrame h δ s).1.moveDuration ∧
    (sceneControllerFrame h δ s).1.moveDuration ≤ EVENT_THRESHOLD_SECONDS ∧
    ((sceneControllerFrame h δ s).2 = true →
      (sceneControllerFrame h δ s).1.moveDuration = 0) ∧
    (isMoving h = true → EVENT_THRESHOLD_SECONDS < s.moveDuration + δ →
      (sceneControllerFrame h δ s).2 = true) := by
  rw [frame_moveDuration, frame_fired]
  exact ⟨accum_nonneg _ _ _ hδ h0, accum_le_threshold _ _ _ hδ h0 h10,
    fun hf => accum_fired_md _ _ _ hf,
    fun hm hgt => (accum_fired_iff _ _ _).2 ⟨hm, hgt⟩⟩

theorem accumulator_threshold_invariant_witness :
    0 ≤ (sceneControllerFrame ⟨true, ⟨1, 0⟩⟩ 11 initController).1.moveDuration ∧
    (sceneControllerFrame ⟨true, ⟨1, 0⟩⟩ 11 initController).1.moveDuration
        ≤ EVENT_THRESHOLD_SECONDS ∧
    ((sceneControllerFrame ⟨true, ⟨1, 0⟩⟩ 11 initController).2 = true →
      (sceneControllerFrame ⟨true, ⟨1, 0⟩⟩ 11 initController).1.moveDuration = 0) ∧
    (isMoving ⟨true, ⟨1, 0⟩⟩ = true →
      EVENT_THRESHOLD_SECONDS < initController.moveDuration + 11 →
      (sceneControllerFrame ⟨true, ⟨1, 0⟩⟩ 11 initController).2 = true) :=
  accumulator_threshold_invariant ⟨true, ⟨1, 0⟩⟩ 11 initController
    (by norm_num) (by norm_num [initController])
    (by norm_num [initController, EVENT_THRESHOLD_SECONDS])

/-- C6: on a tick whose input does not pass the moving test (magnitude within
the deadzone, or no hand detected), no trigger fires and the accumulator
decays at least as fast as it accumulates (the decrement is at least 1× the
elapsed time, clipped at zero — the code decays at 2×), never grows, and
strictly decreases whenever it is positive and the elapsed time is
positive. -/
theorem accumulator_decay_dominates (h : HandData) (δ : ℚ)
    (s : ControllerState) (hm : isMoving h = false) (hδ : 0 ≤ δ)
    (h0 : 0 ≤ s.moveDuration) :
    (sceneControllerFrame h δ s).2 = false ∧
    (sceneControllerFrame h δ s).1.moveDuration ≤ max 0 (s.moveDuration - δ) ∧
    (sceneControllerFrame h δ s).1.moveDuration ≤ s.moveDuration ∧
    (0 < s.moveDuration → 0 < δ →
      (sceneControllerFrame h δ s).1.moveDuration < s.moveDuration) := by
  have hstep : accumulatorStep false δ s.moveDuration
      = (max 0 (s.moveDuration - δ * 2), false) := rfl
  rw [frame_moveDuration, frame_fired, hm, hstep]
  refine ⟨rfl, ?_, ?_, ?_⟩
  · show max 0 (s.moveDuration - δ * 2) ≤ max 0 (s.moveDuration - δ)
    exact max_le_max (le_refl 0) (by linarith)
  · show max 0 (s.moveDuration - δ * 2) ≤ s.moveDuration
    exact max_le h0 (by linarith)
  · intro hpos hδpos
    show max 0 (s.moveDuration - δ * 2) < s.moveDuration
    exact max_lt hpos (by linarith)

theorem accumulator_decay_dominates_witness :
    (sceneControllerFrame ⟨false, ⟨0, 0⟩⟩ 1 ⟨5, 0, 0, 0, 10, 0⟩).2 = false ∧
    (sceneControllerFrame ⟨false, ⟨0, 0⟩⟩ 1 ⟨5, 0, 0, 0, 10, 0⟩).1.moveDuration
        ≤ max 0 ((5 : ℚ) - 1) ∧
    (sceneControllerFrame ⟨false, ⟨0, 0⟩⟩ 1 ⟨5, 0, 0, 0, 10, 0⟩).1.moveDuration
        ≤ 5 ∧
    ((0 : ℚ) < 5 → (0 : ℚ) < 1 →
      (sceneControllerFrame ⟨false, ⟨0, 0⟩⟩ 1 ⟨5, 0, 0, 0, 10, 0⟩).1.moveDuration
        < 5) :=
  accumulator_decay_dominates ⟨false, ⟨0, 0⟩⟩ 1 ⟨5, 0, 0, 0, 10, 0⟩
    rfl (by norm_num) (by norm_num)

/-- C1 counterexample: the claim quantifies over all ticks with Δt ≤ 0, but
at Δt = -1 a rain particle at height 100 moves to height 250: the code does
not guard against negative elapsed times, so an animated quantity changes on
a tick with Δt ≤ 0. -/
theorem negative_delta_changes_rain :
    (-1 : ℚ) ≤ 0 ∧ (rainParticleStep (-1) ⟨0, 100, 0⟩).y ≠ 100 := by
  constructor
  · norm_num
  · have hval : rainParticleStep (-1) ⟨0, 100, 0⟩ = ⟨0, 250, 0⟩ := by
      norm_num [rainParticleStep, rainFallSpeed]
    rw [hval]
    norm_num

/-- C1 (amended): for every update tick with elapsed time Δt = 0, every
animated quantity — the camera position (given the per-tick invariant
`camY = 10` that the frame itself establishes), the water distortionScale,
and every rain particle height (given the nonnegativity that every
previous tick establishes) — is exactly unchanged by the tick.  (For Δt < 0
the quantities can change; see the counterexample.) -/
theorem zero_delta_tick_noop :
    (∀ (h : HandData) (s : ControllerState), s.camY = 10 →
      ((sceneControllerFrame h 0 s).1.camX = s.camX ∧
       (sceneControllerFrame h 0 s).1.camY = s.camY ∧
       (sceneControllerFrame h 0 s).1.camZ = s.camZ)) ∧
    (∀ (g : GameState) (d : ℚ), distortionFrame g 0 d = d) ∧
    (∀ p : Particle, 0 ≤ p.y → rainParticleStep 0 p = p) := by
  refine ⟨?_, ?_, ?_⟩
  · intro h s hy
    unfold sceneControllerFrame
    refine ⟨by simp, by simp [hy], by simp⟩
  · intro g d
    unfold distortionFrame lerp
    ring
  · intro p hp
    unfold rainParticleStep
    simp only [mul_zero, sub_zero]
    rw [if_neg (not_lt.2 hp)]

theorem zero_delta_tick_noop_witness :
    initController.camY = 10 ∧
    ((sceneControllerFrame ⟨true, ⟨1, 0⟩⟩ 0 initController).1.camX
        = initController.camX ∧
     (sceneControllerFrame ⟨true, ⟨1, 0⟩⟩ 0 initController).1.camY
        = initController.camY ∧
     (sceneControllerFrame ⟨true, ⟨1, 0⟩⟩ 0 initController).1.camZ
        = initController.camZ) ∧
    distortionFrame GameState.NORMAL 0 5 = 5 ∧
    rainParticleStep 0 ⟨1, 2, 3⟩ = ⟨1, 2, 3⟩ :=
  ⟨rfl, zero_delta_tick_noop.1 ⟨true, ⟨1, 0⟩⟩ initController rfl,
    zero_delta_tick_noop.2.1 GameState.NORMAL 5,
    zero_delta_tick_noop.2.2 ⟨1, 2, 3⟩ (by norm_num)⟩

theorem handRight_moving : isMoving ⟨true, ⟨1, 0⟩⟩ = true := by
  norm_num [isMoving, deadzone]

/-- C2 counterexample: SceneController smooths the velocity by the fixed
per-frame fraction 0.05, not by a per-second rate times Δt, so the camera
position reached after a fixed total elapsed time depends on how that time
is partitioned into ticks: with the detected direction (1, 0) held constant,
covering T = 2 seconds as a single tick of Δt = 2 yields camera x = 3/2,
while covering it as two ticks of Δt = 1 yields camera x = 177/80. -/
theorem camera_partition_dependent :
    (runController ⟨true, ⟨1, 0⟩⟩ [2] initController).camX ≠
      (runController ⟨true, ⟨1, 0⟩⟩ [1, 1] initController).camX := by
  norm_num [runController, List.foldl_cons, List.foldl_nil, sceneControllerFrame,
    accumulatorStep, handRight_moving, initController, SPEED,
    EVENT_THRESHOLD_SECONDS]

/-- C2 (amended): camera position smoothing is NOT frame-rate independent;
the interpolation factor is the fixed per-frame fraction 0.05 rather than a
per-second rate multiplied by Δt.  Concretely, with the constant detected
input direction (1, 0), the smoothed velocity after n ticks equals
`SPEED * (1 - (19/20)^n)` for every tick duration δ — it depends only on the
number of ticks taken, not on the elapsed time they cover — so the camera
position reached over a fixed total time differs between partitions (see the
counterexample). -/
theorem camera_smoothing_per_frame_fraction (n : ℕ) (δ : ℚ) :
    (iterateController ⟨true, ⟨1, 0⟩⟩ δ n initController).velocityX
      = SPEED * (1 - (19 / 20) ^ n) := by
  induction n with
  | zero =>
    norm_num [iterateController, initController]
  | succ n ih =>
    have hstep : iterateController ⟨true, ⟨1, 0⟩⟩ δ (n + 1) initController
        = (sceneControllerFrame ⟨true, ⟨1, 0⟩⟩ δ
            (iterateController ⟨true, ⟨1, 0⟩⟩ δ n initController)).1 := rfl
    have hvx : ∀ s : ControllerState,
        (sceneControllerFrame ⟨true, ⟨1, 0⟩⟩ δ s).1.velocityX
          = s.velocityX + ((1 : ℚ) * SPEED - s.velocityX) * 0.05 := by
      intro s
      unfold sceneControllerFrame
      simp [handRight_moving]
    rw [hstep, hvx, ih]
    have h05 : (0.05 : ℚ) = 1 / 20 := by norm_num
    rw [h05, pow_succ]
    ring

/-- C7: on every tick, each rain particle keeps its horizontal coordinates;
a particle whose decreased vertical coordinate has dropped below 0 is
redeposited exactly at the configured top height within that same tick; and
no particle of the field has a negative height at the end of the tick. -/
theorem rain_redeposit_same_tick (δ : ℚ) (p : Particle) (ps : List Particle)
    (hδ : 0 < δ) :
    (rainParticleStep δ p).x = p.x ∧ (rainParticleStep δ p).z = p.z ∧
    (p.y - rainFallSpeed * δ < 0 → (rainParticleStep δ p).y = rainTopHeight) ∧
    (∀ q ∈ rainFrame δ ps, 0 ≤ q.y) := by
  refine ⟨?_, ?_, ?_, ?_⟩
  · unfold rainParticleStep
    split <;> rfl
  · unfold rainParticleStep
    split <;> rfl
  · intro hy
    unfold rainParticleStep
    rw [if_pos hy]
  · intro q hq
    simp only [rainFrame, List.mem_map] at hq
    obtain ⟨p2, _, rfl⟩ := hq
    unfold rainParticleStep
    split
    · norm_num [rainTopHeight]
    · rename_i h2
      simp only [not_lt] at h2
      exact h2

theorem rain_redeposit_same_tick_witness :
    (rainParticleStep 1 ⟨7, 100, -3⟩).x = 7 ∧
    (rainParticleStep 1 ⟨7, 100, -3⟩).z = -3 ∧
    ((100 : ℚ) - rainFallSpeed * 1 < 0 →
      (rainParticleStep 1 ⟨7, 100, -3⟩).y = rainTopHeight) ∧
    (∀ q ∈ rainFrame 1 [(⟨0, 50, 0⟩ : Particle)], 0 ≤ q.y) :=
  rain_redeposit_same_tick 1 ⟨7, 100, -3⟩ [⟨0, 50, 0⟩] (by norm_num)

/-- C8 counterexample: when the Math.random() sample for the delay is 0 — a
value the half-open range [0, 1) of Math.random() admits — the rescheduled
`nextFlashTime` equals exactly now + 0.5, so it is not *strictly* greater
than now + minDelay as the claim states. -/
theorem flash_delay_lower_bound_attained :
    ((0 : ℚ) ≤ 0 ∧ (0 : ℚ) < 1) ∧
    (lightningFrame true 1 0 0 0 0 ⟨none, 0, 0⟩).nextFlashTime = 1 + 1/2 ∧
    ¬ (1 + 1/2 < (lightningFrame true 1 0 0 0 0 ⟨none, 0, 0⟩).nextFlashTime) := by
  have hval : (lightningFrame true 1 0 0 0 0 ⟨none, 0, 0⟩).nextFlashTime
      = 1 + 1/2 := by
    norm_num [lightningFrame, lerp, flashPeak]
  refine ⟨⟨le_refl 0, by norm_num⟩, hval, ?_⟩
  rw [hval]
  exact lt_irrefl _

/-- C8 (amended): at every lightning flash event, with the random sample
`rD ∈ [0, 1)`, the next flash time is rescheduled to a value in the
half-open interval [now + 0.5, now + 3): at least minDelay = 0.5 seconds
after the current clock time (inclusive — attained at rD = 0) and strictly
less than maxDelay = 3 seconds after it. -/
theorem flash_reschedule_range (now δ rX rZ rD : ℚ) (s : LightningState)
    (h0 : 0 ≤ rD) (h1 : rD < 1) (hf : s.nextFlashTime < now) :
    now + 1/2 ≤ (lightningFrame true now δ rX rZ rD s).nextFlashTime ∧
    (lightningFrame true now δ rX rZ rD s).nextFlashTime < now + 3 := by
  have hval : (lightningFrame true now δ rX rZ rD s).nextFlashTime
      = now + rD * 2.5 + 0.5 := by
    unfold lightningFrame
    simp [hf]
  rw [hval]
  have h25 : (2.5 : ℚ) = 5/2 := by norm_num
  have h05 : (0.5 : ℚ) = 1/2 := by norm_num
  rw [h25, h05]
  constructor <;> linarith

theorem flash_reschedule_range_witness :
    5 + 1/2 ≤ (lightningFrame true 5 0 0 0 (1/2) ⟨none, 0, 0⟩).nextFlashTime ∧
    (lightningFrame true 5 0 0 0 (1/2) ⟨none, 0, 0⟩).nextFlashTime < 5 + 3 :=
  flash_reschedule_range 5 0 0 0 (1/2) ⟨none, 0, 0⟩
    (by norm_num) (by norm_num) (by norm_num)

/-- C9 counterexample: the intensity decay uses the unclamped
`MathUtils.lerp(intensity, 0, delta * 5)`; on a tick with Δt = 3/10 (a frame
slower than 5 fps, so `delta * 5 > 1`) and intensity 2, the new intensity is
2 + (0 - 2) * (3/2) = -1 < 0: flashIntensity CAN become negative after a
tick. -/
theorem flash_intensity_goes_negative :
    (0 : ℚ) ≤ 3/10 ∧
    (lightningFrame true 0 (3/10) 0 0 0 ⟨none, 100, 2⟩).flashIntensity < 0 := by
  constructor
  · norm_num
  · norm_num [lightningFrame, lerp]

/-- C9 (amended): for ticks with 0 ≤ Δt ≤ 1/5 (so that the unclamped lerp
factor `delta * 5` stays within [0, 1]; for larger Δt the intensity can go
negative, see the counterexample), the flashIntensity stays nonnegative and
is non-increasing on every tick between flash events; at a flash event it is
set to the fixed peak before the same tick's decay is applied, leaving
`flashPeak * (1 - 5Δt)` at the end of that tick (exactly the peak for
Δt = 0); and a disabled tick zeroes it immediately. -/
theorem flash_intensity_invariants (now δ rX rZ rD : ℚ) (s : LightningState)
    (h0 : 0 ≤ s.flashIntensity) (hδ : 0 ≤ δ) (hδ5 : δ ≤ 1/5) :
    (¬ s.nextFlashTime < now →
      0 ≤ (lightningFrame true now δ rX rZ rD s).flashIntensity ∧
      (lightningFrame true now δ rX rZ rD s).flashIntensity
        ≤ s.flashIntensity) ∧
    (s.nextFlashTime < now →
      (lightningFrame true now δ rX rZ rD s).flashIntensity
        = flashPeak * (1 - 5 * δ)) ∧
    (lightningFrame false now δ rX rZ rD s).flashIntensity = 0 := by
  refine ⟨?_, ?_, ?_⟩
  · intro hnf
    have hval : (lightningFrame true now δ rX rZ rD s).flashIntensity
        = s.flashIntensity + (0 - s.flashIntensity) * (δ * 5) := by
      unfold lightningFrame lerp
      simp [hnf]
    rw [hval]
    constructor
    · nlinarith [mul_nonneg h0 (by linarith : (0 : ℚ) ≤ 1 - 5 * δ)]
    · nlinarith [mul_nonneg h0 (by linarith : (0 : ℚ) ≤ 5 * δ)]
  · intro hflash
    have hval : (lightningFrame true now δ rX rZ rD s).flashIntensity
        = lerp flashPeak 0 (δ * 5) := by
      unfold lightningFrame
      simp [hflash]
    rw [hval]
    unfold lerp flashPeak
    ring
  · unfold lightningFrame
    simp

theorem flash_intensity_invariants_witness :
    (¬ (⟨none, 100, 2⟩ : LightningState).nextFlashTime < 0 →
      0 ≤ (lightningFrame true 0 (1/10) 0 0 0 ⟨none, 100, 2⟩).flashIntensity ∧
      (lightningFrame true 0 (1/10) 0 0 0 ⟨none, 100, 2⟩).flashIntensity
        ≤ (⟨none, 100, 2⟩ : LightningState).flashIntensity) ∧
    ((⟨none, 100, 2⟩ : LightningState).nextFlashTime < 0 →
      (lightningFrame true 0 (1/10) 0 0 0 ⟨none, 100, 2⟩).flashIntensity
        = flashPeak * (1 - 5 * (1/10))) ∧
    (lightningFrame false 0 (1/10) 0 0 0 ⟨none, 100, 2⟩).flashIntensity = 0 :=
  flash_intensity_invariants 0 (1/10) 0 0 0 ⟨none, 100, 2⟩
    (by norm_num) (by norm_num) (by norm_num)

/-- C10: the initial particle heights `r * 400` range over [0, 400) as the
random sample ranges over [0, 1), and this range exceeds the redeposit top
height 300 (e.g. the valid sample r = 9/10 yields the initial height 360),
so height ∈ [0, 300] is not an invariant from activation; once established —
in particular a wrap deposits the particle exactly at height 300 — the bound
is preserved by every subsequent tick with nonnegative Δt. -/
theorem rain_initial_exceeds_wrap_height :
    (∀ r : ℚ, 0 ≤ r → r < 1 → 0 ≤ rainInitY r ∧ rainInitY r < 400) ∧
    (0 ≤ (9/10 : ℚ) ∧ (9/10 : ℚ) < 1 ∧ rainTopHeight < rainInitY (9/10)) ∧
    (∀ (δ : ℚ) (p : Particle), 0 ≤ δ → p.y ≤ rainTopHeight →
      (rainParticleStep δ p).y ≤ rainTopHeight ∧
        0 ≤ (rainParticleStep δ p).y) ∧
    (∀ (δ : ℚ) (p : Particle), p.y - rainFallSpeed * δ < 0 →
      (rainParticleStep δ p).y = rainTopHeight) := by
  refine ⟨?_, ?_, ?_, ?_⟩
  · intro r h0 h1
    unfold rainInitY
    constructor
    · exact mul_nonneg h0 (by norm_num)
    · linarith
  · norm_num [rainInitY, rainTopHeight]
  · intro δ p hδ hy
    unfold rainParticleStep
    split
    · constructor <;> norm_num [rainTopHeight]
    · rename_i hlt
      simp only [not_lt] at hlt
      constructor
      · show p.y - rainFallSpeed * δ ≤ rainTopHeight
        have hfall : (0 : ℚ) ≤ rainFallSpeed * δ :=
          mul_nonneg (by norm_num [rainFallSpeed]) hδ
        linarith
      · exact hlt
  · intro δ p hy
    unfold rainParticleStep
    rw [if_pos hy]

theorem rain_initial_exceeds_wrap_height_witness :
    (0 ≤ rainInitY (1/2) ∧ rainInitY (1/2) < 400) ∧
    ((rainParticleStep 1 ⟨0, 200, 0⟩).y ≤ rainTopHeight ∧
      0 ≤ (rainParticleStep 1 ⟨0, 200, 0⟩).y) ∧
    (rainParticleStep 1 ⟨0, 100, 0⟩).y = rainTopHeight :=
  ⟨rain_initial_exceeds_wrap_height.1 (1/2) (by norm_num) (by norm_num),
    rain_initial_exceeds_wrap_height.2.2.1 1 ⟨0, 200, 0⟩ (by norm_num)
      (by norm_num [rainTopHeight]),
    rain_initial_exceeds_wrap_height.2.2.2 1 ⟨0, 100, 0⟩
      (by norm_num [rainFallSpeed])⟩

end OceanSpec
